import Mathlib

/-!
Verification of the three teaching snippets of curso_poo_cpp_moderno.

Shallow embedding of

* `ejercicios/modulo05/ejercicio1.cpp` (class `Token` and its friend factory),
* `ejercicios/modulo05/ejercicio5.cpp` (class `Buffer`, copy and move),
* `ejercicios/modulo09/apartado4/Controlador.h` with the devices registered in
  `ejercicios/modulo09/apartado3/main.cpp`.

`std::cout` is a `String` that every printing function extends on the right.
Objects that the source compares by address (`this != &otro`) live in a list
of objects and are named by their position in it.
-/

namespace Ejercicio1

/-- Class `Token`: the single data member `valor`. -/
structure Token where
  valor : String
deriving DecidableEq, Repr

/-- Member `Token::mostrar`: `std::cout << "Token: " << valor << std::endl`. -/
def Token.mostrar (t : Token) (cout : String) : String :=
  cout ++ "Token: " ++ t.valor ++ "\n"

/-- The friend factory: `return Token("ID-SECURE-001")`. -/
def crearTokenSeguro : Token :=
  Token.mk "ID-SECURE-001"

/-- Program `main`: `Token token = crearTokenSeguro(); token.mostrar();`. -/
def main (cout : String) : String :=
  let token := crearTokenSeguro
  token.mostrar cout

end Ejercicio1

namespace Ejercicio5

/-- Class `Buffer`: the single data member `datos`, a `std::vector<int>`. -/
structure Buffer where
  datos : List Int
deriving DecidableEq, Repr

/-- State of a run: the `Buffer` objects created so far, each named by its
position (its address), and the console. -/
structure Estado where
  objetos : List Buffer
  cout : String
deriving DecidableEq, Repr

/-- The object behind a reference. -/
def Estado.leer (e : Estado) (dir : Nat) : Buffer :=
  e.objetos.getD dir (Buffer.mk [])

/-- Insertion `std::cout << s`. -/
def Estado.escribir (e : Estado) (s : String) : Estado :=
  { e with cout := e.cout ++ s }

/-- Default constructor `Buffer()`: `datos` is default-initialised, then the message is printed.
The new object takes the next free address. -/
def Buffer.porDefecto (e : Estado) : Estado :=
  { objetos := e.objetos ++ [Buffer.mk []],
    cout := e.cout ++ "Constructor por defecto\n" }

/-- List constructor `Buffer(std::initializer_list<int> valores) : datos(valores)`. -/
def Buffer.conLista (valores : List Int) (e : Estado) : Estado :=
  { objetos := e.objetos ++ [Buffer.mk valores],
    cout := e.cout ++ "Constructor con lista de inicialización\n" }

/-- Copy constructor `Buffer(const Buffer& otro) : datos(otro.datos)`. -/
def Buffer.copia (otro : Nat) (e : Estado) : Estado :=
  { objetos := e.objetos ++ [Buffer.mk (e.leer otro).datos],
    cout := e.cout ++ "Constructor de copia\n" }

/-- Copy assignment `Buffer& operator=(const Buffer& otro)`: the message first, then the
guarded `datos = otro.datos`. -/
def Buffer.asignarCopia (este otro : Nat) (e : Estado) : Estado :=
  let e1 := e.escribir "Asignación por copia\n"
  if este ≠ otro then
    { e1 with objetos := e1.objetos.set este (Buffer.mk (e1.leer otro).datos) }
  else e1

/-- Move constructor `Buffer(Buffer&& otro) noexcept : datos(std::move(otro.datos))`. The move
constructor of `std::vector` leaves its argument empty. -/
def Buffer.movimiento (otro : Nat) (e : Estado) : Estado :=
  { objetos := (e.objetos.set otro (Buffer.mk [])) ++ [Buffer.mk (e.leer otro).datos],
    cout := e.cout ++ "Constructor de movimiento\n" }

/-- Move assignment `Buffer& operator=(Buffer&& otro) noexcept`: the message first, then the
guarded `datos = std::move(otro.datos)`. Move assignment of `std::vector`
leaves its argument in a valid but unspecified state: `residuo` is what the
library leaves there (the empty sequence in the usual implementations). -/
def Buffer.asignarMovimiento (residuo : List Int) (este otro : Nat) (e : Estado) : Estado :=
  let e1 := e.escribir "Asignación por movimiento\n"
  if este ≠ otro then
    { e1 with objetos :=
        (e1.objetos.set este (Buffer.mk (e1.leer otro).datos)).set otro (Buffer.mk residuo) }
  else e1

/-- Member `Buffer::mostrar`: `"[ "`, every element followed by a blank, `"]\n"`. -/
def Buffer.mostrar (este : Nat) (e : Estado) : Estado :=
  let e1 := e.escribir "[ "
  let e2 := (e.leer este).datos.foldl (fun acc v => acc.escribir (toString v ++ " ")) e1
  e2.escribir "]\n"

/-- Program `main` of the snippet; `b1 .. b5` are the addresses `0 .. 4`. -/
def main (residuo : List Int) : Estado :=
  let e : Estado := { objetos := [], cout := "" }
  let e := e.escribir "== Creación inicial ==\n"
  let e := Buffer.conLista [1, 2, 3, 4, 5] e
  let e := Buffer.mostrar 0 e
  let e := e.escribir "\n== Copia de objeto ==\n"
  let e := Buffer.copia 0 e
  let e := Buffer.mostrar 1 e
  let e := e.escribir "\n== Asignación por copia ==\n"
  let e := Buffer.porDefecto e
  let e := Buffer.asignarCopia 2 0 e
  let e := Buffer.mostrar 2 e
  let e := e.escribir "\n== Movimiento de objeto ==\n"
  let e := Buffer.movimiento 0 e
  let e := Buffer.mostrar 3 e
  let e := e.escribir "\n== Asignación por movimiento ==\n"
  let e := Buffer.porDefecto e
  let e := Buffer.asignarMovimiento residuo 4 3 e
  let e := Buffer.mostrar 4 e
  e.escribir "\n== Fin del programa ==\n"

end Ejercicio5


namespace Ejercicio5

/-- One operation of the class, as a value: the constructors and assignment
operators of `Buffer` with their arguments. -/
inductive Operacion where
  | porDefecto : Operacion
  | conLista (valores : List Int) : Operacion
  | copia (otro : Nat) : Operacion
  | asignarCopia (este otro : Nat) : Operacion
  | movimiento (otro : Nat) : Operacion
  | asignarMovimiento (residuo : List Int) (este otro : Nat) : Operacion
deriving DecidableEq, Repr

/-- Running an operation is calling the member function it names. -/
def Operacion.aplicar : Operacion → Estado → Estado
  | .porDefecto, e => Buffer.porDefecto e
  | .conLista valores, e => Buffer.conLista valores e
  | .copia otro, e => Buffer.copia otro e
  | .asignarCopia este otro, e => Buffer.asignarCopia este otro e
  | .movimiento otro, e => Buffer.movimiento otro e
  | .asignarMovimiento residuo este otro, e => Buffer.asignarMovimiento residuo este otro e

/-- Bookkeeping that follows the words of the specification, not the code:
for every object, the value it was last constructed with or last assigned.
A constructor records the value the new object is built from, an assignment
records the value of its right-hand side for the object assigned to, and
nothing is recorded for the right-hand side itself. -/
def Operacion.anotar (e : Estado) (ultimo : List (List Int)) : Operacion → List (List Int)
  | .porDefecto => ultimo ++ [[]]
  | .conLista valores => ultimo ++ [valores]
  | .copia otro => ultimo ++ [(e.leer otro).datos]
  | .asignarCopia este otro => ultimo.set este (e.leer otro).datos
  | .movimiento otro => ultimo ++ [(e.leer otro).datos]
  | .asignarMovimiento _ este otro => ultimo.set este (e.leer otro).datos

/-- The invariant of the specification for the object at `dir`: its contents
equal the value it was last constructed with or last assigned. -/
def Cumple (e : Estado) (ultimo : List (List Int)) (dir : Nat) : Prop :=
  (e.leer dir).datos = ultimo.getD dir []

instance (e : Estado) (ultimo : List (List Int)) (dir : Nat) : Decidable (Cumple e ultimo dir) :=
  inferInstanceAs (Decidable (_ = _))

/-- The object at `dir` is the right-hand side of a move that takes place:
the argument of the move constructor, or the argument of a move assignment
to another object. -/
def Operacion.fuente (dir : Nat) : Operacion → Prop
  | .movimiento otro => dir = otro
  | .asignarMovimiento _ este otro => dir = otro ∧ este ≠ otro
  | _ => False

instance (dir : Nat) (op : Operacion) : Decidable (op.fuente dir) := by
  cases op <;> unfold Operacion.fuente <;> infer_instance

end Ejercicio5

namespace Apartado4

/-- The world a device acts on: the console and whatever else the devices
depend on (the state of `std::rand`, seeded in `main`). -/
structure Mundo (σ : Type) where
  cout : String
  azar : σ

/-- Insertion `std::cout << s`. -/
def Mundo.escribir {σ : Type} (w : Mundo σ) (s : String) : Mundo σ :=
  { w with cout := w.cout ++ s }

/-- Modelled from the spec: `Dispositivos.h` is not among the sources. A sensor
is a device with a name and a producer of an optional numeric reading; the
reading has type `ρ` and producing it may advance the state `σ` the producer
draws from. -/
structure Sensor (σ ρ : Type) where
  nombre : String
  leer : σ → Option ρ × σ

/-- Modelled from the spec: `Dispositivos.h` is not among the sources. An
actuator is a device with a name and a zero-argument activation callback;
`activar` is what the call `a->activar()` does to the world. -/
structure Actuador (σ : Type) where
  nombre : String
  activar : Mundo σ → Mundo σ

/-- Class `Dispositivo` with its two derived classes; `dynamic_cast<Sensor*>`
and `dynamic_cast<Actuador*>` are the two matches. -/
inductive Dispositivo (σ ρ : Type) where
  | sensor (s : Sensor σ ρ) : Dispositivo σ ρ
  | actuador (a : Actuador σ) : Dispositivo σ ρ

/-- Class `Controlador`: the vector of owned devices. -/
structure Controlador (σ ρ : Type) where
  dispositivos : List (Dispositivo σ ρ)

/-- Member `agregarDispositivo`: `dispositivos.push_back(std::move(d))`. -/
def Controlador.agregarDispositivo {σ ρ : Type} (c : Controlador σ ρ) (d : Dispositivo σ ρ) :
    Controlador σ ρ :=
  { dispositivos := c.dispositivos ++ [d] }

/-- Body of the loop of `leerSensores` for one device. `mostrarLectura` is the
stream insertion `std::cout << *lectura` of the reading type. -/
def pasoLectura {σ ρ : Type} (mostrarLectura : ρ → String) (w : Mundo σ) :
    Dispositivo σ ρ → Mundo σ
  | .sensor s =>
    let lectura := s.leer w.azar
    let w1 : Mundo σ := { w with azar := lectura.2 }
    match lectura.1 with
    | some v => w1.escribir (s.nombre ++ ": " ++ mostrarLectura v ++ "\n")
    | none => w1.escribir (s.nombre ++ ": error de lectura\n")
  | .actuador _ => w

/-- Member `leerSensores`: the header, then the loop over `dispositivos`. -/
def Controlador.leerSensores {σ ρ : Type} (mostrarLectura : ρ → String) (c : Controlador σ ρ)
    (w : Mundo σ) : Mundo σ :=
  c.dispositivos.foldl (pasoLectura mostrarLectura) (w.escribir "\n--- Lectura de sensores ---\n")

/-- Body of the loop of `activarActuadores` for one device. -/
def pasoActivacion {σ ρ : Type} (w : Mundo σ) : Dispositivo σ ρ → Mundo σ
  | .actuador a => a.activar w
  | .sensor _ => w

/-- Member `activarActuadores`: the header, then the loop over `dispositivos`. -/
def Controlador.activarActuadores {σ ρ : Type} (c : Controlador σ ρ) (w : Mundo σ) : Mundo σ :=
  c.dispositivos.foldl pasoActivacion (w.escribir "\n--- Activación de actuadores ---\n")

/-- The registrations of `main`: two sensors, then the actuator `Ventilador`,
then the actuator `Alarma`, each actuator with the callback `main` gives it.
The producers of the two sensors are in `Dispositivos.h`; they are arguments. -/
def registroMain {σ ρ : Type} (leerTemperatura leerHumedad : σ → Option ρ × σ) :
    Controlador σ ρ :=
  let controlador : Controlador σ ρ := { dispositivos := [] }
  let controlador := controlador.agregarDispositivo
    (.sensor { nombre := "Sensor de temperatura", leer := leerTemperatura })
  let controlador := controlador.agregarDispositivo
    (.sensor { nombre := "Sensor de humedad", leer := leerHumedad })
  let controlador := controlador.agregarDispositivo
    (.actuador { nombre := "Ventilador", activar := fun w => w.escribir "Ventilador encendido\n" })
  let controlador := controlador.agregarDispositivo
    (.actuador { nombre := "Alarma", activar := fun w => w.escribir "Alarma activada\n" })
  controlador

/-- The sensors among the devices, in the order of registration. -/
def sensores {σ ρ : Type} : List (Dispositivo σ ρ) → List (Sensor σ ρ)
  | [] => []
  | .sensor s :: ds => s :: sensores ds
  | .actuador _ :: ds => sensores ds

/-- The actuators among the devices, in the order of registration. -/
def actuadores {σ ρ : Type} : List (Dispositivo σ ρ) → List (Actuador σ)
  | [] => []
  | .actuador a :: ds => a :: actuadores ds
  | .sensor _ :: ds => actuadores ds

/-- The readings of a run over the devices, in the words of the specification:
every sensor in turn, with its name and with what its producer yields at the
moment it is asked. -/
def lecturas {σ ρ : Type} : List (Dispositivo σ ρ) → σ → List (String × Option ρ)
  | [], _ => []
  | .sensor s :: ds, st => (s.nombre, (s.leer st).1) :: lecturas ds (s.leer st).2
  | .actuador _ :: ds, st => lecturas ds st

/-- The line the specification asks for a reading: the name, a colon and
either the value or the fixed error text. -/
def linea {ρ : Type} (mostrarLectura : ρ → String) : String × Option ρ → String
  | (n, some v) => n ++ ": " ++ mostrarLectura v ++ "\n"
  | (n, none) => n ++ ": error de lectura\n"

/-- The run of `leerSensores` at the moment its loop has gone through the
devices `antes`: the header is written and those devices are done. -/
def hasta {σ ρ : Type} (mostrarLectura : ρ → String) (antes : List (Dispositivo σ ρ))
    (w : Mundo σ) : Mundo σ :=
  antes.foldl (pasoLectura mostrarLectura) (w.escribir "\n--- Lectura de sensores ---\n")

/-- Number of line ends in a text. -/
def saltos (s : String) : Nat :=
  s.data.count '\n'

/-- A rendering for the examples: readings are whole percentages. -/
def mostrarPorcentaje (v : Fin 100) : String :=
  toString v.val

/-- A sensor for the examples: it yields `lectura` and advances the state. -/
def sensorFijo (nombre : String) (lectura : Option (Fin 100)) : Sensor Nat (Fin 100) :=
  { nombre := nombre, leer := fun st => (lectura, st + 1) }

/-- Devices for the examples: a sensor that reads 21, a sensor whose reading
fails, an actuator, and a sensor that reads 55. -/
def ejemploDispositivos : List (Dispositivo Nat (Fin 100)) :=
  [.sensor (sensorFijo "T" (some 21)), .sensor (sensorFijo "H" none),
   .actuador { nombre := "V", activar := fun w => w.escribir "V encendido\n" },
   .sensor (sensorFijo "P" (some 55))]

end Apartado4

namespace Ejercicio1

/-- C1: the token made by `crearTokenSeguro` shows itself as the line
`Token: ID-SECURE-001` and a newline, appended to whatever the console held;
`main`, run on the empty console, leaves exactly that line on it. -/
theorem mostrar_token_seguro (cout : String) :
    crearTokenSeguro.mostrar cout = cout ++ "Token: ID-SECURE-001\n" ∧
      main cout = cout ++ "Token: ID-SECURE-001\n" ∧
      main "" = "Token: ID-SECURE-001\n" := by
  refine ⟨?_, ?_, by decide⟩ <;>
    simp only [main, Token.mostrar, crearTokenSeguro, String.append_assoc] <;> rfl

end Ejercicio1

namespace Ejercicio5

set_option maxRecDepth 100000

/-- C5: `main` writes the announced lines in the announced order, each one
ended by a newline, whatever the library leaves in a moved-from vector. -/
theorem main_salida (residuo : List Int) :
    (main residuo).cout = String.join (List.map (fun l => l ++ "\n")
      ["== Creación inicial ==", "Constructor con lista de inicialización", "[ 1 2 3 4 5 ]", "",
       "== Copia de objeto ==", "Constructor de copia", "[ 1 2 3 4 5 ]", "",
       "== Asignación por copia ==", "Constructor por defecto", "Asignación por copia",
       "[ 1 2 3 4 5 ]", "",
       "== Movimiento de objeto ==", "Constructor de movimiento", "[ 1 2 3 4 5 ]", "",
       "== Asignación por movimiento ==", "Constructor por defecto", "Asignación por movimiento",
       "[ 1 2 3 4 5 ]", "",
       "== Fin del programa =="]) := by
  rfl

theorem leer_append_nuevo (objetos : List Buffer) (b : Buffer) (cout : String) :
    (Estado.mk (objetos ++ [b]) cout).leer objetos.length = b := by
  simp [Estado.leer, List.getD_eq_getElem?_getD]

theorem leer_append_viejo (objetos : List Buffer) (b : Buffer) (cout : String) (dir : Nat)
    (h : dir < objetos.length) :
    (Estado.mk (objetos ++ [b]) cout).leer dir = (Estado.mk objetos cout).leer dir := by
  simp [Estado.leer, List.getD_eq_getElem?_getD, List.getElem?_append_left h]

theorem leer_set_igual (objetos : List Buffer) (b : Buffer) (cout : String) (dir : Nat)
    (h : dir < objetos.length) :
    (Estado.mk (objetos.set dir b) cout).leer dir = b := by
  simp [Estado.leer, List.getD_eq_getElem?_getD, h]

theorem leer_set_otro (objetos : List Buffer) (b : Buffer) (cout : String) (dir otra : Nat)
    (h : otra ≠ dir) :
    (Estado.mk (objetos.set otra b) cout).leer dir = (Estado.mk objetos cout).leer dir := by
  simp [Estado.leer, List.getD_eq_getElem?_getD, List.getElem?_set_ne h]

/-- C2: a move into another `Buffer` leaves the destination holding what the
source held: the object built by the move constructor holds `xs`, and so does
an existing object, distinct from the source and with any contents, after the
move assignment. -/
theorem movimiento_destino (xs residuo : List Int) (e : Estado) (este otro : Nat)
    (hxs : (e.leer otro).datos = xs) :
    ((Buffer.movimiento otro e).leer e.objetos.length).datos = xs ∧
      (este < e.objetos.length → este ≠ otro →
        ((Buffer.asignarMovimiento residuo este otro e).leer este).datos = xs) := by
  constructor
  · have h := leer_append_nuevo (e.objetos.set otro (Buffer.mk [])) (Buffer.mk (e.leer otro).datos)
      (e.cout ++ "Constructor de movimiento\n")
    rw [List.length_set] at h
    simp only [Buffer.movimiento]
    rw [h]
    exact hxs
  · intro heste hne
    simp only [Buffer.asignarMovimiento, Estado.escribir, if_pos hne]
    rw [leer_set_otro _ _ _ este otro (Ne.symm hne), leer_set_igual _ _ _ este heste]
    exact hxs

theorem movimiento_destino_witness :
    ((Estado.mk [Buffer.mk [1, 2, 3, 4, 5], Buffer.mk [7, 8]] "").leer 0).datos = [1, 2, 3, 4, 5] ∧
      (((Buffer.movimiento 0 (Estado.mk [Buffer.mk [1, 2, 3, 4, 5], Buffer.mk [7, 8]] "")).leer
          (Estado.mk [Buffer.mk [1, 2, 3, 4, 5], Buffer.mk [7, 8]] "").objetos.length).datos
            = [1, 2, 3, 4, 5] ∧
        (1 < (Estado.mk [Buffer.mk [1, 2, 3, 4, 5], Buffer.mk [7, 8]] "").objetos.length → 1 ≠ 0 →
          ((Buffer.asignarMovimiento [] 1 0
            (Estado.mk [Buffer.mk [1, 2, 3, 4, 5], Buffer.mk [7, 8]] "")).leer 1).datos
              = [1, 2, 3, 4, 5])) :=
  ⟨by decide, movimiento_destino [1, 2, 3, 4, 5] []
    (Estado.mk [Buffer.mk [1, 2, 3, 4, 5], Buffer.mk [7, 8]] "") 1 0 (by decide)⟩

/-- C7: copying duplicates the data: after the copy constructor, and after the
copy assignment to an existing object with any contents, the destination holds
what the source holds and the source still holds it. -/
theorem copia_duplica (xs : List Int) (e : Estado) (este otro : Nat)
    (hotro : otro < e.objetos.length) (hxs : (e.leer otro).datos = xs) :
    ((Buffer.copia otro e).leer e.objetos.length).datos = xs ∧
      ((Buffer.copia otro e).leer otro).datos = xs ∧
      (este < e.objetos.length →
        ((Buffer.asignarCopia este otro e).leer este).datos = xs ∧
          ((Buffer.asignarCopia este otro e).leer otro).datos = xs) := by
  refine ⟨?_, ?_, ?_⟩
  · simp only [Buffer.copia, leer_append_nuevo, hxs]
  · simp only [Buffer.copia]
    rw [leer_append_viejo _ _ _ otro hotro]
    exact hxs
  · intro heste
    by_cases hne : este = otro
    · subst hne
      simp only [Buffer.asignarCopia, Estado.escribir, ne_eq, not_true_eq_false, if_false]
      exact ⟨hxs, hxs⟩
    · simp only [Buffer.asignarCopia, Estado.escribir, if_pos hne]
      rw [leer_set_igual _ _ _ este heste, leer_set_otro _ _ _ otro este hne]
      exact ⟨hxs, hxs⟩

theorem copia_duplica_witness :
    0 < (Estado.mk [Buffer.mk [1, 2, 3, 4, 5], Buffer.mk [7, 8]] "").objetos.length ∧
      ((Estado.mk [Buffer.mk [1, 2, 3, 4, 5], Buffer.mk [7, 8]] "").leer 0).datos
        = [1, 2, 3, 4, 5] ∧
      (((Buffer.copia 0 (Estado.mk [Buffer.mk [1, 2, 3, 4, 5], Buffer.mk [7, 8]] "")).leer
          (Estado.mk [Buffer.mk [1, 2, 3, 4, 5], Buffer.mk [7, 8]] "").objetos.length).datos
            = [1, 2, 3, 4, 5] ∧
        ((Buffer.copia 0 (Estado.mk [Buffer.mk [1, 2, 3, 4, 5], Buffer.mk [7, 8]] "")).leer 0).datos
          = [1, 2, 3, 4, 5] ∧
        (1 < (Estado.mk [Buffer.mk [1, 2, 3, 4, 5], Buffer.mk [7, 8]] "").objetos.length →
          ((Buffer.asignarCopia 1 0
            (Estado.mk [Buffer.mk [1, 2, 3, 4, 5], Buffer.mk [7, 8]] "")).leer 1).datos
              = [1, 2, 3, 4, 5] ∧
          ((Buffer.asignarCopia 1 0
            (Estado.mk [Buffer.mk [1, 2, 3, 4, 5], Buffer.mk [7, 8]] "")).leer 0).datos
              = [1, 2, 3, 4, 5])) :=
  ⟨by decide, by decide, copia_duplica [1, 2, 3, 4, 5]
    (Estado.mk [Buffer.mk [1, 2, 3, 4, 5], Buffer.mk [7, 8]] "") 1 0 (by decide) (by decide)⟩

/-- C10: assigning a `Buffer` to itself, by copy or by move, prints the line of
the operator and changes no object: the buffer holds what it held. -/
theorem autoasignacion (residuo : List Int) (e : Estado) (b : Nat) :
    (Buffer.asignarCopia b b e).objetos = e.objetos ∧
      ((Buffer.asignarCopia b b e).leer b).datos = (e.leer b).datos ∧
      (Buffer.asignarCopia b b e).cout = e.cout ++ "Asignación por copia\n" ∧
      (Buffer.asignarMovimiento residuo b b e).objetos = e.objetos ∧
      ((Buffer.asignarMovimiento residuo b b e).leer b).datos = (e.leer b).datos ∧
      (Buffer.asignarMovimiento residuo b b e).cout = e.cout ++ "Asignación por movimiento\n" := by
  simp [Buffer.asignarCopia, Buffer.asignarMovimiento, Estado.escribir, Estado.leer]

/-- C3, as the code has it: an operation of the class keeps the invariant
(contents equal the value last constructed with or last assigned) for every
object that is not the right-hand side of a move taking place in it; the
object the move constructor moves from is left empty, and the record of last
values keeps one entry per object. -/
theorem invariante_salvo_fuente (op : Operacion) (e : Estado) (ultimo : List (List Int))
    (dir : Nat) (hlen : ultimo.length = e.objetos.length)
    (hdir : dir < (op.aplicar e).objetos.length)
    (hantes : dir < e.objetos.length → Cumple e ultimo dir)
    (hfuente : ¬ op.fuente dir) :
    Cumple (op.aplicar e) (op.anotar e ultimo) dir ∧
      (op.anotar e ultimo).length = (op.aplicar e).objetos.length ∧
      (∀ otro, op = .movimiento otro → otro < e.objetos.length →
        ((op.aplicar e).leer otro).datos = []) := by
  obtain ⟨objetos, cout⟩ := e
  replace hlen : ultimo.length = objetos.length := hlen
  simp only [Cumple, Estado.leer, List.getD_eq_getElem?_getD] at hantes ⊢
  cases op with
  | porDefecto =>
    simp only [Operacion.aplicar, Operacion.anotar, Buffer.porDefecto, List.length_append,
      List.length_singleton] at hdir ⊢
    refine ⟨?_, by omega, by intro otro h; cases h⟩
    by_cases hd : dir < objetos.length
    · rw [List.getElem?_append_left hd, List.getElem?_append_left (by omega)]
      exact hantes hd
    · have : dir = objetos.length := by omega
      subst this
      simp [← hlen]
  | conLista valores =>
    simp only [Operacion.aplicar, Operacion.anotar, Buffer.conLista, List.length_append,
      List.length_singleton] at hdir ⊢
    refine ⟨?_, by omega, by intro otro h; cases h⟩
    by_cases hd : dir < objetos.length
    · rw [List.getElem?_append_left hd, List.getElem?_append_left (by omega)]
      exact hantes hd
    · have : dir = objetos.length := by omega
      subst this
      simp [← hlen]
  | copia otro =>
    simp only [Operacion.aplicar, Operacion.anotar, Buffer.copia, List.length_append,
      List.length_singleton] at hdir ⊢
    refine ⟨?_, by omega, by intro otro h; cases h⟩
    by_cases hd : dir < objetos.length
    · rw [List.getElem?_append_left hd, List.getElem?_append_left (by omega)]
      exact hantes hd
    · have : dir = objetos.length := by omega
      subst this
      simp [← hlen]
  | asignarCopia este otro =>
    simp only [Operacion.aplicar, Operacion.anotar, Buffer.asignarCopia, Estado.escribir] at hdir ⊢
    refine ⟨?_, ?_, by intro otro h; cases h⟩
    · by_cases hne : este = otro
      · subst hne
        simp only [ne_eq, not_true_eq_false, if_false] at hdir ⊢
        by_cases hd : este = dir
        · subst hd
          simp [List.getElem?_set, hlen, hdir, Estado.leer, List.getD_eq_getElem?_getD]
        · rw [List.getElem?_set_ne hd]
          exact hantes hdir
      · simp only [if_pos hne, List.length_set] at hdir ⊢
        by_cases hd : este = dir
        · subst hd
          simp [List.getElem?_set, hlen, hdir, Estado.leer, List.getD_eq_getElem?_getD]
        · rw [List.getElem?_set_ne hd, List.getElem?_set_ne hd]
          exact hantes hdir
    · split <;> simp [hlen]
  | movimiento otro =>
    simp only [Operacion.aplicar, Operacion.anotar, Buffer.movimiento, List.length_append,
      List.length_singleton, List.length_set, Operacion.fuente] at hdir hfuente ⊢
    refine ⟨?_, by omega, ?_⟩
    · by_cases hd : dir < objetos.length
      · rw [List.getElem?_append_left (by simpa using hd), List.getElem?_append_left (by omega),
          List.getElem?_set_ne (Ne.symm hfuente)]
        exact hantes hd
      · have : dir = objetos.length := by omega
        subst this
        simp [← hlen]
    · intro o ho hlt
      cases ho
      rw [List.getElem?_append_left (by simpa using hlt)]
      simp [List.getElem?_set, hlt]
  | asignarMovimiento residuo este otro =>
    simp only [Operacion.aplicar, Operacion.anotar, Buffer.asignarMovimiento, Estado.escribir,
      Operacion.fuente] at hdir hfuente ⊢
    refine ⟨?_, ?_, by intro otro h; cases h⟩
    · by_cases hne : este = otro
      · subst hne
        simp only [ne_eq, not_true_eq_false, if_false] at hdir ⊢
        by_cases hd : este = dir
        · subst hd
          simp [List.getElem?_set, hlen, hdir, Estado.leer, List.getD_eq_getElem?_getD]
        · rw [List.getElem?_set_ne hd]
          exact hantes hdir
      · simp only [if_pos hne, List.length_set] at hdir ⊢
        have hdo : otro ≠ dir := by
          intro h
          exact hfuente ⟨h.symm, hne⟩
        rw [List.getElem?_set_ne hdo]
        by_cases hd : este = dir
        · subst hd
          simp [List.getElem?_set, hlen, hdir, Estado.leer, List.getD_eq_getElem?_getD]
        · rw [List.getElem?_set_ne hd, List.getElem?_set_ne hd]
          exact hantes hdir
    · split <;> simp [hlen]

theorem invariante_salvo_fuente_witness :
    ([[1, 2, 3, 4, 5], [7, 8]] : List (List Int)).length
        = (Estado.mk [Buffer.mk [1, 2, 3, 4, 5], Buffer.mk [7, 8]] "").objetos.length ∧
      1 < ((Operacion.movimiento 0).aplicar
        (Estado.mk [Buffer.mk [1, 2, 3, 4, 5], Buffer.mk [7, 8]] "")).objetos.length ∧
      (1 < (Estado.mk [Buffer.mk [1, 2, 3, 4, 5], Buffer.mk [7, 8]] "").objetos.length ∧
        Cumple (Estado.mk [Buffer.mk [1, 2, 3, 4, 5], Buffer.mk [7, 8]] "")
          [[1, 2, 3, 4, 5], [7, 8]] 1) ∧
      ¬ (Operacion.movimiento 0).fuente 1 ∧
      (Cumple ((Operacion.movimiento 0).aplicar
          (Estado.mk [Buffer.mk [1, 2, 3, 4, 5], Buffer.mk [7, 8]] ""))
        ((Operacion.movimiento 0).anotar
          (Estado.mk [Buffer.mk [1, 2, 3, 4, 5], Buffer.mk [7, 8]] "")
          [[1, 2, 3, 4, 5], [7, 8]]) 1 ∧
        ((Operacion.movimiento 0).anotar
          (Estado.mk [Buffer.mk [1, 2, 3, 4, 5], Buffer.mk [7, 8]] "")
          [[1, 2, 3, 4, 5], [7, 8]]).length
          = ((Operacion.movimiento 0).aplicar
            (Estado.mk [Buffer.mk [1, 2, 3, 4, 5], Buffer.mk [7, 8]] "")).objetos.length ∧
        (∀ otro, Operacion.movimiento 0 = .movimiento otro →
          otro < (Estado.mk [Buffer.mk [1, 2, 3, 4, 5], Buffer.mk [7, 8]] "").objetos.length →
          (((Operacion.movimiento 0).aplicar
            (Estado.mk [Buffer.mk [1, 2, 3, 4, 5], Buffer.mk [7, 8]] "")).leer otro).datos = [])) :=
  ⟨by decide, by decide, ⟨by decide, by decide⟩, by decide,
    invariante_salvo_fuente (.movimiento 0)
      (Estado.mk [Buffer.mk [1, 2, 3, 4, 5], Buffer.mk [7, 8]] "") [[1, 2, 3, 4, 5], [7, 8]] 1
      (by decide) (by decide) (fun _ => by decide) (by decide)⟩

/-- C3 fails for the source of a move: the object built from the list
`1 2 3 4 5` satisfies the invariant, and after the move constructor has moved
from it (`Buffer b4 = std::move(b1)` in `main`) it is empty although the value
it was last constructed with is `1 2 3 4 5`. -/
theorem invariante_falla_en_fuente :
    Cumple (Buffer.conLista [1, 2, 3, 4, 5] (Estado.mk [] ""))
        ((Operacion.conLista [1, 2, 3, 4, 5]).anotar (Estado.mk [] "") []) 0 ∧
      ((Buffer.movimiento 0 (Buffer.conLista [1, 2, 3, 4, 5] (Estado.mk [] ""))).leer 0).datos
        = [] ∧
      ((Operacion.movimiento 0).anotar (Buffer.conLista [1, 2, 3, 4, 5] (Estado.mk [] ""))
        ((Operacion.conLista [1, 2, 3, 4, 5]).anotar (Estado.mk [] "") [])).getD 0 []
        = [1, 2, 3, 4, 5] ∧
      ¬ Cumple ((Operacion.movimiento 0).aplicar
          (Buffer.conLista [1, 2, 3, 4, 5] (Estado.mk [] "")))
        ((Operacion.movimiento 0).anotar (Buffer.conLista [1, 2, 3, 4, 5] (Estado.mk [] ""))
          ((Operacion.conLista [1, 2, 3, 4, 5]).anotar (Estado.mk [] "") [])) 0 := by
  decide

end Ejercicio5

namespace Apartado4

theorem join_cons (a : String) (l : List String) :
    String.join (a :: l) = a ++ String.join l := by
  apply String.ext
  simp [String.data_join]

theorem saltos_append (a b : String) : saltos (a ++ b) = saltos a + saltos b := by
  simp [saltos, List.count_append]

theorem lecturas_nombres {σ ρ : Type} (ds : List (Dispositivo σ ρ)) :
    ∀ st : σ, (lecturas ds st).map Prod.fst = (sensores ds).map Sensor.nombre := by
  induction ds with
  | nil => intro st; rfl
  | cons d resto ih =>
    intro st
    cases d with
    | sensor s => simp [lecturas, sensores, ih]
    | actuador a => simp [lecturas, sensores, ih]

theorem paso_sensor {σ ρ : Type} (mostrarLectura : ρ → String) (s : Sensor σ ρ) (w : Mundo σ) :
    pasoLectura mostrarLectura w (.sensor s) =
      { cout := w.cout ++ linea mostrarLectura (s.nombre, (s.leer w.azar).1),
        azar := (s.leer w.azar).2 } := by
  simp only [pasoLectura, Mundo.escribir]
  cases (s.leer w.azar).1 <;> rfl

theorem bucle_lectura {σ ρ : Type} (mostrarLectura : ρ → String) (ds : List (Dispositivo σ ρ)) :
    ∀ w : Mundo σ, (ds.foldl (pasoLectura mostrarLectura) w).cout =
      w.cout ++ String.join ((lecturas ds w.azar).map (linea mostrarLectura)) := by
  induction ds with
  | nil => intro w; simp [lecturas, String.join]
  | cons d resto ih =>
    intro w
    rw [List.foldl_cons, ih]
    cases d with
    | sensor s =>
      rw [paso_sensor]
      simp only [lecturas, List.map_cons, join_cons, String.append_assoc]
    | actuador a => rfl

theorem bucle_lectura_append {σ ρ : Type} (mostrarLectura : ρ → String) (antes : List (Dispositivo σ ρ))
    (s : Sensor σ ρ) (despues : List (Dispositivo σ ρ)) (w : Mundo σ) :
    (Controlador.leerSensores mostrarLectura ⟨antes ++ .sensor s :: despues⟩ w).cout =
      (hasta mostrarLectura antes w).cout ++
        linea mostrarLectura (s.nombre, (s.leer (hasta mostrarLectura antes w).azar).1) ++
        String.join ((lecturas despues (s.leer (hasta mostrarLectura antes w).azar).2).map
          (linea mostrarLectura)) := by
  simp only [Controlador.leerSensores, List.foldl_append, List.foldl_cons]
  rw [bucle_lectura, paso_sensor]
  rfl

/-- C4: in `leerSensores`, a sensor named `n` reached after the devices
`antes` gets the line `n: error de lectura` when its reading has no value and
the line `n: v` when it has the value `v`; in both cases the loop goes on and
the output continues with one line for every sensor registered after it. -/
theorem linea_de_cada_sensor {σ ρ : Type} (mostrarLectura : ρ → String)
    (antes : List (Dispositivo σ ρ)) (s : Sensor σ ρ) (despues : List (Dispositivo σ ρ))
    (w : Mundo σ) :
    ((s.leer (hasta mostrarLectura antes w).azar).1 = none →
      (Controlador.leerSensores mostrarLectura ⟨antes ++ .sensor s :: despues⟩ w).cout =
        (hasta mostrarLectura antes w).cout ++ (s.nombre ++ ": error de lectura\n") ++
          String.join ((lecturas despues (s.leer (hasta mostrarLectura antes w).azar).2).map
            (linea mostrarLectura))) ∧
      (∀ v, (s.leer (hasta mostrarLectura antes w).azar).1 = some v →
        (Controlador.leerSensores mostrarLectura ⟨antes ++ .sensor s :: despues⟩ w).cout =
          (hasta mostrarLectura antes w).cout ++ (s.nombre ++ ": " ++ mostrarLectura v ++ "\n") ++
            String.join ((lecturas despues (s.leer (hasta mostrarLectura antes w).azar).2).map
              (linea mostrarLectura))) ∧
      (lecturas despues (s.leer (hasta mostrarLectura antes w).azar).2).map Prod.fst =
        (sensores despues).map Sensor.nombre := by
  refine ⟨?_, ?_, lecturas_nombres despues _⟩
  · intro h
    rw [bucle_lectura_append, h]
    rfl
  · intro v h
    rw [bucle_lectura_append, h]
    rfl

theorem linea_de_cada_sensor_witness :
    ((sensorFijo "H" none).leer
        (hasta mostrarPorcentaje [.sensor (sensorFijo "T" (some 21))] (Mundo.mk "" 0)).azar).1
        = none ∧
      (Controlador.leerSensores mostrarPorcentaje ⟨ejemploDispositivos⟩ (Mundo.mk "" 0)).cout =
        "\n--- Lectura de sensores ---\nT: 21\nH: error de lectura\nP: 55\n" :=
  ⟨rfl, ((linea_de_cada_sensor mostrarPorcentaje [.sensor (sensorFijo "T" (some 21))]
    (sensorFijo "H" none)
    [.actuador { nombre := "V", activar := fun w => w.escribir "V encendido\n" },
     .sensor (sensorFijo "P" (some 55))] (Mundo.mk "" 0)).1 rfl).trans (by decide)⟩

theorem saltos_linea {ρ : Type} (mostrarLectura : ρ → String)
    (hv : ∀ v, saltos (mostrarLectura v) = 0) (n : String) (hn : saltos n = 0) (r : Option ρ) :
    saltos (linea mostrarLectura (n, r)) = 1 := by
  cases r with
  | none =>
    simp only [linea, saltos_append, hn]
    decide
  | some v =>
    simp only [linea, saltos_append, hn, hv]
    decide

theorem saltos_lecturas {σ ρ : Type} (mostrarLectura : ρ → String)
    (hv : ∀ v, saltos (mostrarLectura v) = 0) (ds : List (Dispositivo σ ρ)) :
    (∀ s ∈ sensores ds, saltos s.nombre = 0) → ∀ st : σ,
      saltos (String.join ((lecturas ds st).map (linea mostrarLectura))) = (sensores ds).length := by
  induction ds with
  | nil => intro _ st; rfl
  | cons d resto ih =>
    intro hn st
    cases d with
    | sensor s =>
      have hs : saltos s.nombre = 0 := hn s (by simp [sensores])
      have hr : ∀ t ∈ sensores resto, saltos t.nombre = 0 :=
        fun t ht => hn t (by simp [sensores, ht])
      simp only [lecturas, sensores, List.map_cons, join_cons, saltos_append, List.length_cons,
        saltos_linea mostrarLectura hv s.nombre hs, ih hr]
      omega
    | actuador a =>
      simp only [lecturas, sensores]
      exact ih hn st

theorem sensores_append {σ ρ : Type} (xs ys : List (Dispositivo σ ρ)) :
    sensores (xs ++ ys) = sensores xs ++ sensores ys := by
  induction xs with
  | nil => rfl
  | cons x resto ih => cases x <;> simp [sensores, ih]

theorem actuadores_append {σ ρ : Type} (xs ys : List (Dispositivo σ ρ)) :
    actuadores (xs ++ ys) = actuadores xs ++ actuadores ys := by
  induction xs with
  | nil => rfl
  | cons x resto ih => cases x <;> simp [actuadores, ih]

/-- C8: the output of `leerSensores` is what the console held, an empty line,
the header `--- Lectura de sensores ---` and then one line for each reading;
the readings are those of the registered sensors, all of them and in the order
of registration, and no actuator has one; a device added by
`agregarDispositivo` comes after those already registered. When neither names
nor rendered values contain a line end, the text after the header has as many
lines as there are sensors, whatever the readings yield. -/
theorem lee_todos_los_sensores {σ ρ : Type} (mostrarLectura : ρ → String)
    (c : Controlador σ ρ) (d : Dispositivo σ ρ) (w : Mundo σ) :
    (c.leerSensores mostrarLectura w).cout =
        w.cout ++ "\n--- Lectura de sensores ---\n" ++
          String.join ((lecturas c.dispositivos w.azar).map (linea mostrarLectura)) ∧
      (lecturas c.dispositivos w.azar).map Prod.fst =
        (sensores c.dispositivos).map Sensor.nombre ∧
      (lecturas c.dispositivos w.azar).length = (sensores c.dispositivos).length ∧
      sensores (c.agregarDispositivo d).dispositivos =
        sensores c.dispositivos ++ sensores [d] ∧
      ((∀ v, saltos (mostrarLectura v) = 0) →
        (∀ s ∈ sensores c.dispositivos, saltos s.nombre = 0) →
        saltos (String.join ((lecturas c.dispositivos w.azar).map (linea mostrarLectura))) =
          (sensores c.dispositivos).length) := by
  have hnom := lecturas_nombres c.dispositivos w.azar
  refine ⟨?_, hnom, ?_, ?_, ?_⟩
  · simp only [Controlador.leerSensores]
    rw [bucle_lectura]
    rfl
  · have := congrArg List.length hnom
    simpa using this
  · exact sensores_append c.dispositivos [d]
  · intro hv hn
    exact saltos_lecturas mostrarLectura hv c.dispositivos hn w.azar

theorem lee_todos_los_sensores_witness :
    (∀ v, saltos (mostrarPorcentaje v) = 0) ∧
      (∀ s ∈ sensores (Controlador.mk ejemploDispositivos).dispositivos, saltos s.nombre = 0) ∧
      saltos (String.join ((lecturas (Controlador.mk ejemploDispositivos).dispositivos
        (Mundo.mk "" 0).azar).map (linea mostrarPorcentaje))) = 3 ∧
      ((Controlador.mk ejemploDispositivos).leerSensores mostrarPorcentaje (Mundo.mk "" 0)).cout =
        "\n--- Lectura de sensores ---\nT: 21\nH: error de lectura\nP: 55\n" :=
  ⟨by decide, by decide,
    ((lee_todos_los_sensores mostrarPorcentaje (Controlador.mk ejemploDispositivos)
      (.sensor (sensorFijo "Q" none)) (Mundo.mk "" 0)).2.2.2.2 (by decide) (by decide)).trans
        (by decide),
    (lee_todos_los_sensores mostrarPorcentaje (Controlador.mk ejemploDispositivos)
      (.sensor (sensorFijo "Q" none)) (Mundo.mk "" 0)).1.trans (by decide)⟩

theorem bucle_activacion {σ ρ : Type} (ds : List (Dispositivo σ ρ)) :
    ∀ w : Mundo σ, ds.foldl pasoActivacion w =
      (actuadores ds).foldl (fun acc a => a.activar acc) w := by
  induction ds with
  | nil => intro w; rfl
  | cons d resto ih =>
    intro w
    cases d with
    | sensor s => simpa [pasoActivacion, actuadores] using ih w
    | actuador a => simpa [pasoActivacion, actuadores] using ih (a.activar w)

/-- C9: `activarActuadores` writes its header and then runs the activation of
each registered actuator once, in the order of registration, and nothing else:
no producer of a sensor takes part. A device added by `agregarDispositivo`
comes after those already registered. With the registrations of `main` the
actuators are `Ventilador` and `Alarma` in this order, the console receives
`Ventilador encendido` and then `Alarma activada`, and the state the sensors
draw from is untouched, whatever the producers of the two sensors are. -/
theorem activa_todos_los_actuadores {σ ρ : Type} (c : Controlador σ ρ) (d : Dispositivo σ ρ)
    (leerTemperatura leerHumedad : σ → Option ρ × σ) (w : Mundo σ) :
    c.activarActuadores w =
        (actuadores c.dispositivos).foldl (fun acc a => a.activar acc)
          (w.escribir "\n--- Activación de actuadores ---\n") ∧
      actuadores (c.agregarDispositivo d).dispositivos =
        actuadores c.dispositivos ++ actuadores [d] ∧
      (actuadores (registroMain leerTemperatura leerHumedad).dispositivos).map Actuador.nombre =
        ["Ventilador", "Alarma"] ∧
      ((registroMain leerTemperatura leerHumedad).activarActuadores w).cout =
        w.cout ++ "\n--- Activación de actuadores ---\n" ++ "Ventilador encendido\n" ++
          "Alarma activada\n" ∧
      ((registroMain leerTemperatura leerHumedad).activarActuadores w).azar = w.azar := by
  refine ⟨?_, actuadores_append c.dispositivos [d], rfl, rfl, rfl⟩
  simp only [Controlador.activarActuadores]
  rw [bucle_activacion]

end Apartado4
